import Mathlib

/-!
Shallow embedding of `src/hanapy.cpp` (pybind11 + Boost.Hana binding
generator demo).

The C++ translation unit consists of a single `PYBIND11_MODULE(hanapy, m)`
body that runs once at module-load time and registers class bindings:
* two hand-written "old style" packet bindings with `py::init` and
  `def_readwrite` members;
* twelve hand-written "old style" opaque tensor bindings;
* two Hana-generated packet bindings (constructor synthesized from
  `hana::members`, one read accessor per field via `hana::fold` over
  `hana::accessors`);
* twelve Hana-generated opaque tensor bindings, one per element of
  `hana::cartesian_product(make_tuple(ds, ts))`, named
  `"tensor_" + dName + "_" + tName`.

We embed the registration surface as explicit data: a class binding is its
Python name together with the ordered list of members attached by `.def` /
`.def_readwrite` calls, and the module is the ordered list of class
bindings it registers.  pybind11's duplicate-name check (registering a
class under an already-taken name throws at runtime) is modelled by an
`Except`-valued fold.
-/

/-- C++ field types appearing in the packet structs of the source
(`int32_t`, `float`, `std::vector<float>`). -/
inductive CType where
  | int32
  | float32
  | vectorFloat
deriving DecidableEq, Repr

/-- Scalar template parameters used for `Tensor<D, T>` in the source
(`float` and `double`). -/
inductive Scalar where
  | float
  | double
deriving DecidableEq, Repr

/-- One field of an introspectable struct: its name and its C++ type, as
declared by `BOOST_HANA_DEFINE_STRUCT`. -/
structure StructField where
  name : String
  type : CType
deriving DecidableEq, Repr

/-- A packet entry of the `packets` tuple: the Python-side name paired with
the struct's field list in declaration order (`hana::members` /
`hana::accessors` enumerate fields in declaration order). -/
structure PacketDecl where
  pyName : String
  fields : List StructField
deriving DecidableEq, Repr

/-- `SomePacket`: `BOOST_HANA_DEFINE_STRUCT(SomePacket, (int32_t, id),
(float, some_payload))`. -/
def somePacketDecl : PacketDecl :=
  { pyName := "some_packet"
    fields := [⟨"id", CType.int32⟩, ⟨"some_payload", CType.float32⟩] }

/-- `AnotherPacket`: `BOOST_HANA_DEFINE_STRUCT(AnotherPacket, (int32_t, id),
(std::vector<float>, another_payload))`. -/
def anotherPacketDecl : PacketDecl :=
  { pyName := "another_packet"
    fields := [⟨"id", CType.int32⟩, ⟨"another_payload", CType.vectorFloat⟩] }

/-- The `packets` tuple of the source, in order. -/
def packets : List PacketDecl := [somePacketDecl, anotherPacketDecl]

/-- One member attached to a class binding:
* `init sig` models `.def(py::init<sig...>())`;
* `readwrite fname i` models `.def_readwrite(fname, &P::field_i)` — a
  property through which field `i` can be read and written;
* `getter mname i` models `.def(mname, lambda)` where the lambda takes
  `P& p` and returns field `i` of `p` by value — a bound method that only
  reads (pybind11 attaches no setter for a plain `.def`). -/
inductive Member where
  | init (sig : List CType)
  | readwrite (fname : String) (fieldIdx : Nat)
  | getter (mname : String) (fieldIdx : Nat)
deriving DecidableEq, Repr

/-- A registered class binding: Python name plus attached members (empty
for opaque classes registered with a bare `py::class_<...>(m, name)`). -/
structure ClassBinding where
  name : String
  members : List Member
deriving DecidableEq, Repr

/-- The constructor signatures attached to a binding (the `sig` of each
`init` member, in attachment order). -/
def ClassBinding.initSigs (c : ClassBinding) : List (List CType) :=
  c.members.filterMap fun m =>
    match m with
    | Member.init sig => some sig
    | _ => none

/-- Step 2 of the Hana loop: `hana::transform(hana::members(P{}), ...)`
lists the field types of `P` in declaration order. -/
def memberTypes (pd : PacketDecl) : List CType :=
  pd.fields.map StructField.type

/-- `hana::accessors<P>()`: the `(name, accessor)` pairs of `P` in
declaration order.  The accessor function object of field `i` is stateless
and reads field `i`, so we represent it by the field index. -/
def accessorsOf (pd : PacketDecl) : List (String × Nat) :=
  pd.fields.enum.map fun x => (x.2.name, x.1)

/-- Step 5 of the Hana loop: `hana::fold(hana::accessors<P>(), packet, ...)`
iteratively calls `.def(hana::first(ka).c_str(), read-lambda)` on the
class, attaching one getter method per field. -/
def registerAccessors (c : ClassBinding) (accs : List (String × Nat)) : ClassBinding :=
  accs.foldl (fun c ka => { c with members := c.members ++ [Member.getter ka.1 ka.2] }) c

/-- The whole Hana packet loop body for one `packets` entry: register the
class under its listed name, attach the synthesized constructor
(`hana::unpack(types, template_<constructor>)`, i.e. `py::init` over the
field types in declaration order), then fold the accessors on. -/
def bindPacket (pd : PacketDecl) : ClassBinding :=
  registerAccessors
    { name := pd.pyName, members := [Member.init (memberTypes pd)] }
    (accessorsOf pd)

/-- The `ds` tuple of the source: dimension names with their values. -/
def ds : List (String × Nat) :=
  [("1d", 1), ("2d", 2), ("3d", 3), ("4d", 4), ("5d", 5), ("6d", 6)]

/-- The `ts` tuple of the source: scalar-type names with their types. -/
def ts : List (String × Scalar) :=
  [("f", Scalar.float), ("d", Scalar.double)]

/-- `hana::cartesian_product(hana::make_tuple(l₁, l₂))`: all pairs, first
axis varying slowest. -/
def cartesianProduct (l₁ : List α) (l₂ : List β) : List (α × β) :=
  l₁.flatMap fun a => l₂.map (Prod.mk a)

/-- The name synthesized for one tensor instantiation:
`"tensor_"s + dName + "_"s + tName`. -/
def tensorName (dName tName : String) : String :=
  "tensor_" ++ dName ++ "_" ++ tName

/-- The binding registered for one tensor combination:
`py::class_<Tensor<d, T>>(m, name.c_str())` — a bare class with no
members. -/
def tensorClass (dName tName : String) : ClassBinding :=
  { name := tensorName dName tName, members := [] }

/-- The Hana tensor loop over a given pair of axes: one opaque binding per
element of the cartesian product. -/
def tensorBindingsGen (dsl : List (String × α)) (tsl : List (String × β)) :
    List ClassBinding :=
  (cartesianProduct dsl tsl).map fun dt => tensorClass dt.1.1 dt.2.1

/-- The twelve Hana-generated tensor bindings of the source. -/
def hanaTensorBindings : List ClassBinding :=
  tensorBindingsGen ds ts

/-- Hand-written old-style binding for `SomePacketOld`. -/
def somePacketOldBinding : ClassBinding :=
  { name := "some_packet_old"
    members := [Member.init [CType.int32, CType.float32],
                Member.readwrite "id" 0,
                Member.readwrite "some_payload" 1] }

/-- Hand-written old-style binding for `AnotherPacketOld`. -/
def anotherPacketOldBinding : ClassBinding :=
  { name := "another_packet_old"
    members := [Member.init [CType.int32, CType.vectorFloat],
                Member.readwrite "id" 0,
                Member.readwrite "another_payload" 1] }

/-- The twelve hand-written `py::class_<TensorOld<D, T>>(m, name)` lines,
in source order: the template arguments `(D, T)` paired with the literal
Python name. -/
def oldTensorRegs : List ((Nat × Scalar) × String) :=
  [((1, Scalar.float), "tensor_old_1d_f"),
   ((2, Scalar.float), "tensor_old_2d_f"),
   ((3, Scalar.float), "tensor_old_3d_f"),
   ((4, Scalar.float), "tensor_old_4d_f"),
   ((5, Scalar.float), "tensor_old_5d_f"),
   ((6, Scalar.float), "tensor_old_6d_f"),
   ((1, Scalar.double), "tensor_old_1d_d"),
   ((2, Scalar.double), "tensor_old_2d_d"),
   ((3, Scalar.double), "tensor_old_3d_d"),
   ((4, Scalar.double), "tensor_old_4d_d"),
   ((5, Scalar.double), "tensor_old_5d_d"),
   ((6, Scalar.double), "tensor_old_6d_d")]

/-- Everything `PYBIND11_MODULE(hanapy, m)` registers, in source order:
old-style packets, old-style tensors, Hana packets, Hana tensors. -/
def moduleClasses : List ClassBinding :=
  [somePacketOldBinding, anotherPacketOldBinding]
    ++ oldTensorRegs.map (fun e => { name := e.2, members := [] })
    ++ packets.map bindPacket
    ++ hanaTensorBindings

/-- One registration step.  pybind11 throws at runtime when a class is
registered under a name the module already holds ("generic_type: cannot
initialize type: an object with that name is already defined"); we model
the throw as `Except.error` and the registration as appending the
binding. -/
def registerOne (st : Except String (List ClassBinding)) (c : ClassBinding) :
    Except String (List ClassBinding) :=
  match st with
  | Except.error e => Except.error e
  | Except.ok l =>
    if l.any fun b => b.name == c.name then Except.error c.name
    else Except.ok (l ++ [c])

/-- Running the module initialization body: register every class in source
order, stopping at the first duplicate-name error. -/
def moduleInit : Except String (List ClassBinding) :=
  moduleClasses.foldl registerOne (Except.ok [])

/-- The getter index a member contributes for method name `s`: a `getter`
member named `s` reads its field index; `init` and `readwrite` members
contribute no bound method named `s` (a `def_readwrite` installs a
property, not a method). -/
def Member.getterIdx (m : Member) (s : String) : Option Nat :=
  match m with
  | Member.getter n i => if n = s then some i else none
  | _ => none

/-- Calling bound method `s` of class `c` on an instance.  An instance is
the list of its field values (one value per field, declaration order).
The C++ getter lambda takes `P& p`, reads one field and returns it by
value, so the call yields a copy of the field value together with the
instance, which it leaves untouched. -/
def ClassBinding.invoke (c : ClassBinding) (s : String) (inst : List V) :
    Option (V × List V) :=
  match c.members.findSome? fun m => m.getterIdx s with
  | some i => (inst.get? i).map fun v => (v, inst)
  | none => none

/-- Mutating the object a call returned: the caller overwrites its copy
with `w`.  Only the first component (the copy) changes. -/
def mutateReturned (w : V) (r : V × List V) : V × List V :=
  (w, r.2)

/-- Whether field `i` can be written through the binding surface of `c`:
some member must install write access to field `i`.  Of the member forms
the source produces, only `def_readwrite` (the `readwrite` member) does;
a plain `.def(name, read-lambda)` installs a method with no setter. -/
def ClassBinding.fieldWritable (c : ClassBinding) (i : Nat) : Bool :=
  c.members.any fun m =>
    match m with
    | Member.readwrite _ j => i == j
    | _ => false

/-- Whether field `i` can be read through the binding surface of `c` under
the name `s`: either a `readwrite` property or a `getter` method named `s`
reading field `i`. -/
def ClassBinding.fieldReadableAs (c : ClassBinding) (s : String) (i : Nat) : Bool :=
  c.members.any fun m =>
    match m with
    | Member.readwrite n j => n == s && i == j
    | Member.getter n j => n == s && i == j
    | _ => false

/-- Modelled from the claim's words: the old-style name "with the `_old`
infix removed" — delete the first occurrence of the character run `_old`
from the name. -/
def removeOldMarker : List Char → List Char
  | [] => []
  | c :: rest =>
    if "_old".data.isPrefixOf (c :: rest) then rest.drop 3
    else c :: removeOldMarker rest

/-! Helper lemmas (string and list facts used by the axis-extension
theorem). -/

lemma string_length_data (s : String) : s.length = s.data.length := by
  cases s
  rfl

lemma cartesianProduct_eq_sprod (l₁ : List α) (l₂ : List β) :
    cartesianProduct l₁ l₂ = l₁ ×ˢ l₂ := rfl

lemma tensorName_inj_left {a b x y : String} (hab : a.length = b.length)
    (h : tensorName a x = tensorName b y) : a = b ∧ x = y := by
  have hd0 : (tensorName a x).data = (tensorName b y).data := congrArg String.data h
  have hd : "tensor_".data ++ (a.data ++ ("_".data ++ x.data))
      = "tensor_".data ++ (b.data ++ ("_".data ++ y.data)) := by
    simpa [tensorName, List.append_assoc] using hd0
  have h1 : a.data ++ ("_".data ++ x.data) = b.data ++ ("_".data ++ y.data) :=
    List.append_cancel_left hd
  have hlen : a.data.length = b.data.length := by
    rw [← string_length_data, ← string_length_data]
    exact hab
  obtain ⟨h2, h3⟩ := List.append_inj h1 hlen
  have h4 : x.data = y.data := List.append_cancel_left h3
  exact ⟨String.ext h2, String.ext h4⟩

lemma tensorName_inj_right {a b x y : String} (hxy : x.length = y.length)
    (h : tensorName a x = tensorName b y) : a = b ∧ x = y := by
  have hd0 : (tensorName a x).data = (tensorName b y).data := congrArg String.data h
  have hd : "tensor_".data ++ (a.data ++ ("_".data ++ x.data))
      = "tensor_".data ++ (b.data ++ ("_".data ++ y.data)) := by
    simpa [tensorName, List.append_assoc] using hd0
  have h1 : a.data ++ ("_".data ++ x.data) = b.data ++ ("_".data ++ y.data) :=
    List.append_cancel_left hd
  rw [← List.append_assoc, ← List.append_assoc] at h1
  have hlen : x.data.length = y.data.length := by
    rw [← string_length_data, ← string_length_data]
    exact hxy
  obtain ⟨h2, h3⟩ := List.append_inj' h1 hlen
  have h4 : a.data = b.data := by
    obtain ⟨h5, -⟩ := List.append_inj' h2 rfl
    exact h5
  exact ⟨String.ext h4, String.ext h3⟩

lemma tensorBindingsGen_names (dsl : List (String × α)) (tsl : List (String × β)) :
    (tensorBindingsGen dsl tsl).map ClassBinding.name
      = (cartesianProduct dsl tsl).map fun dt => tensorName dt.1.1 dt.2.1 := by
  simp [tensorBindingsGen, tensorClass, List.map_map, Function.comp]

lemma tensor_names_nodup_of_inj (dsl : List (String × α)) (tsl : List (String × β))
    (hdn : (dsl.map Prod.fst).Nodup) (htn : (tsl.map Prod.fst).Nodup)
    (hinj : ∀ p ∈ dsl, ∀ q ∈ tsl, ∀ p' ∈ dsl, ∀ q' ∈ tsl,
        tensorName p.1 q.1 = tensorName p'.1 q'.1 → p.1 = p'.1 ∧ q.1 = q'.1) :
    ((tensorBindingsGen dsl tsl).map ClassBinding.name).Nodup := by
  rw [tensorBindingsGen_names]
  have hprod : (cartesianProduct dsl tsl).Nodup := by
    rw [cartesianProduct_eq_sprod]
    exact (hdn.of_map _).product (htn.of_map _)
  refine hprod.map_on ?_
  rintro ⟨p, q⟩ hx ⟨p', q'⟩ hy hname
  rw [cartesianProduct_eq_sprod, List.mem_product] at hx hy
  obtain ⟨hnm1, hnm2⟩ := hinj p hx.1 q hx.2 p' hy.1 q' hy.2 hname
  have hp : p = p' := List.inj_on_of_nodup_map hdn hx.1 hy.1 hnm1
  have hq : q = q' := List.inj_on_of_nodup_map htn hx.2 hy.2 hnm2
  rw [hp, hq]

/-- C1: for every aggregate type declared in the `packets` list, the
generated binding's constructor accepts exactly that struct's field types
in declaration order: `py::init<int32_t, float>` for `SomePacket` and
`py::init<int32_t, std::vector<float>>` for `AnotherPacket`. -/
theorem packet_ctor_accepts_field_types :
    packets = [somePacketDecl, anotherPacketDecl]
  ∧ (bindPacket somePacketDecl).initSigs = [memberTypes somePacketDecl]
  ∧ memberTypes somePacketDecl = [CType.int32, CType.float32]
  ∧ (bindPacket anotherPacketDecl).initSigs = [memberTypes anotherPacketDecl]
  ∧ memberTypes anotherPacketDecl = [CType.int32, CType.vectorFloat] := by
  decide

/-- C2 (counterexample): the generated binding surface does not make the
fields writable.  The Hana fold attaches each accessor with a plain
`.def(name, read-lambda)` — a method without a setter — so no field of the
generated `some_packet` binding is writable, refuting "each field of a
bound packet instance can be both read and written through the
binding". -/
theorem packet_fields_not_writable :
    somePacketDecl ∈ packets
  ∧ somePacketDecl.fields.map StructField.name = ["id", "some_payload"]
  ∧ (bindPacket somePacketDecl).fieldWritable 0 = false
  ∧ (bindPacket somePacketDecl).fieldWritable 1 = false := by
  decide

/-- C2 (amended): for every aggregate type declared in the `packets` list,
the generated registration surface exposes a named accessor for each
field through which the field can be read; the generated accessors are
read-only methods, so no field can be written through the generated
binding. -/
theorem packet_accessors_read_only :
    ∀ pd ∈ packets, ∀ x ∈ pd.fields.enum,
      (bindPacket pd).fieldReadableAs x.2.name x.1 = true
    ∧ (bindPacket pd).fieldWritable x.1 = false := by
  decide

/-- C2 (witness for the amended theorem): field `id` (index 0) of the
generated `some_packet` binding is readable under its name and not
writable. -/
theorem packet_accessors_read_only_witness :
    somePacketDecl ∈ packets
  ∧ (0, (⟨"id", CType.int32⟩ : StructField)) ∈ somePacketDecl.fields.enum
  ∧ ((bindPacket somePacketDecl).fieldReadableAs "id" 0 = true
      ∧ (bindPacket somePacketDecl).fieldWritable 0 = false) :=
  ⟨by decide, by decide,
   packet_accessors_read_only somePacketDecl (by decide)
     (0, ⟨"id", CType.int32⟩) (by decide)⟩

/-- C3: for every packet in the `packets` list, the generated binding has
exactly one getter per field (as many getters as fields, and exactly one
getter carrying each field's name and index), and invoking the accessor
named after a field returns the instance's current value of that field
(and leaves the instance as it is). -/
theorem packet_accessor_unique_and_reads :
    (∀ pd ∈ packets,
      ((bindPacket pd).members.filter fun m =>
          match m with
          | Member.getter _ _ => true
          | _ => false).length = pd.fields.length
      ∧ ∀ x ∈ pd.fields.enum,
          ((bindPacket pd).members.filter fun m =>
              decide (m.getterIdx x.2.name = some x.1)).length = 1)
  ∧ ∀ (V : Type) (inst : List V),
      (bindPacket somePacketDecl).invoke "id" inst
        = (inst.get? 0).map (fun v => (v, inst))
    ∧ (bindPacket somePacketDecl).invoke "some_payload" inst
        = (inst.get? 1).map (fun v => (v, inst))
    ∧ (bindPacket anotherPacketDecl).invoke "id" inst
        = (inst.get? 0).map (fun v => (v, inst))
    ∧ (bindPacket anotherPacketDecl).invoke "another_payload" inst
        = (inst.get? 1).map (fun v => (v, inst)) := by
  constructor
  · decide
  · intro V inst
    exact ⟨rfl, rfl, rfl, rfl⟩

/-- C3 (witness): concrete instantiation — `some_packet` has exactly one
getter for field `some_payload`, and calling `id` on the instance
`[3, 7]` returns the stored value `3`. -/
theorem packet_accessor_unique_and_reads_witness :
    somePacketDecl ∈ packets
  ∧ (1, (⟨"some_payload", CType.float32⟩ : StructField)) ∈ somePacketDecl.fields.enum
  ∧ ((bindPacket somePacketDecl).members.filter fun m =>
        decide (m.getterIdx "some_payload" = some 1)).length = 1
  ∧ (bindPacket somePacketDecl).invoke "id" ([3, 7] : List Nat) = some (3, [3, 7]) :=
  ⟨by decide, by decide,
   (packet_accessor_unique_and_reads.1 somePacketDecl (by decide)).2
     (1, ⟨"some_payload", CType.float32⟩) (by decide),
   (packet_accessor_unique_and_reads.2 Nat [3, 7]).1.trans rfl⟩

/-- C4: for every (dimension, scalar-type) pair of the declared cross
product, exactly one generated tensor binding carries the name obtained by
concatenating the two component names around the fixed separators
(`"tensor_" + dName + "_" + tName`). -/
theorem tensor_name_is_concatenation :
    ∀ dp ∈ ds, ∀ tp ∈ ts,
      (hanaTensorBindings.map ClassBinding.name).count
        ("tensor_" ++ dp.1 ++ "_" ++ tp.1) = 1 := by
  decide

/-- C4 (witness): the pair named `1d` and `f` yields exactly one binding
named `tensor_1d_f`. -/
theorem tensor_name_is_concatenation_witness :
    ("1d", 1) ∈ ds
  ∧ ("f", Scalar.float) ∈ ts
  ∧ (hanaTensorBindings.map ClassBinding.name).count
      ("tensor_" ++ "1d" ++ "_" ++ "f") = 1 :=
  ⟨by decide, by decide,
   tensor_name_is_concatenation ("1d", 1) (by decide) ("f", Scalar.float) (by decide)⟩

/-- C5: module registration completes (no error), each declared packet has
exactly one binding under its listed name, each of the twelve cross
product combinations has exactly one binding under its derived name, and
the derived names of the generated bindings are pairwise distinct. -/
theorem module_registers_every_declared_name_once :
    moduleInit = Except.ok moduleClasses
  ∧ (∀ pd ∈ packets, (moduleClasses.map ClassBinding.name).count pd.pyName = 1)
  ∧ (∀ dt ∈ cartesianProduct ds ts,
      (moduleClasses.map ClassBinding.name).count (tensorName dt.1.1 dt.2.1) = 1)
  ∧ (((packets.map bindPacket ++ hanaTensorBindings).map ClassBinding.name).Nodup) :=
  ⟨rfl, by decide, by decide, by decide⟩

/-- C5 (witness): `some_packet` is registered exactly once. -/
theorem module_registers_every_declared_name_once_witness :
    somePacketDecl ∈ packets
  ∧ (moduleClasses.map ClassBinding.name).count "some_packet" = 1 :=
  ⟨by decide,
   module_registers_every_declared_name_once.2.1 somePacketDecl (by decide)⟩

/-- C6: the registration step reaches no runtime error: all 28 registered
names (14 old-style and 14 generated) are distinct, so the fold over
`registerOne` never takes the duplicate-name error branch and produces
exactly the full registration list. -/
theorem module_init_without_error :
    moduleInit = Except.ok moduleClasses
  ∧ moduleClasses.length = 28
  ∧ (moduleClasses.map ClassBinding.name).Nodup :=
  ⟨rfl, by decide, by decide⟩

/-- C8: every generated tensor binding is a named opaque type: no members
(so no constructor, no fields, no methods) are attached. -/
theorem tensor_bindings_have_no_members :
    ∀ b ∈ hanaTensorBindings, b.members = [] ∧ b.initSigs = [] := by
  decide

/-- C8 (witness): the `tensor_1d_f` binding is generated and has no
members. -/
theorem tensor_bindings_have_no_members_witness :
    tensorClass "1d" "f" ∈ hanaTensorBindings
  ∧ ((tensorClass "1d" "f").members = [] ∧ (tensorClass "1d" "f").initSigs = []) :=
  ⟨by decide, tensor_bindings_have_no_members (tensorClass "1d" "f") (by decide)⟩

/-- C9: the Hana-generated bindings refine the hand-written old-style
ones: each generated packet constructor signature equals the hand-written
signature of the corresponding `Old` type, and for each cross product
combination the generated tensor name is registered and equals the
hand-written old-style name for the same template arguments with the
`_old` run removed. -/
theorem hana_bindings_refine_old_bindings :
    (bindPacket somePacketDecl).initSigs = somePacketOldBinding.initSigs
  ∧ (bindPacket anotherPacketDecl).initSigs = anotherPacketOldBinding.initSigs
  ∧ somePacketOldBinding.initSigs = [[CType.int32, CType.float32]]
  ∧ anotherPacketOldBinding.initSigs = [[CType.int32, CType.vectorFloat]]
  ∧ ∀ dt ∈ cartesianProduct ds ts,
      tensorName dt.1.1 dt.2.1 ∈ hanaTensorBindings.map ClassBinding.name
    ∧ (oldTensorRegs.filter fun e => decide (e.1 = (dt.1.2, dt.2.2))).map
        (fun e => removeOldMarker e.2.data) = [(tensorName dt.1.1 dt.2.1).data] :=
  ⟨by decide, by decide, by decide, by decide, by decide⟩

/-- C9 (witness): the combination `(1d, f)` — `tensor_1d_f` is generated,
and the unique old-style registration for `TensorOld<1, float>` is named
`tensor_old_1d_f`, which is `tensor_1d_f` after removing `_old`. -/
theorem hana_bindings_refine_old_bindings_witness :
    (("1d", 1), ("f", Scalar.float)) ∈ cartesianProduct ds ts
  ∧ (tensorName "1d" "f" ∈ hanaTensorBindings.map ClassBinding.name
      ∧ (oldTensorRegs.filter fun e => decide (e.1 = (1, Scalar.float))).map
          (fun e => removeOldMarker e.2.data) = [(tensorName "1d" "f").data]) :=
  ⟨by decide,
   hana_bindings_refine_old_bindings.2.2.2.2 (("1d", 1), ("f", Scalar.float)) (by decide)⟩

/-- C10: invoking a generated packet accessor leaves the instance
unchanged (every field keeps its value), and the accessor returns the
field by value: mutating the returned copy never changes the stored
field of the instance. -/
theorem packet_accessor_frame :
    ∀ pd ∈ packets, ∀ (V : Type) (s : String) (inst : List V) (r : V × List V),
      (bindPacket pd).invoke s inst = some r →
      r.2 = inst
    ∧ (∀ w, (mutateReturned w r).2 = inst)
    ∧ ∀ w j, ((mutateReturned w r).2.get? j = inst.get? j) := by
  intro pd _ V s inst r h
  unfold ClassBinding.invoke at h
  cases hfind : ((bindPacket pd).members.findSome? fun m => m.getterIdx s) with
  | none =>
    rw [hfind] at h
    exact Option.noConfusion h
  | some i =>
    rw [hfind] at h
    have h' : Option.map (fun v => (v, inst)) (inst.get? i) = some r := h
    rw [Option.map_eq_some'] at h'
    obtain ⟨v, hv, hr⟩ := h'
    rw [← hr]
    exact ⟨rfl, fun w => rfl, fun w j => rfl⟩

/-- C10 (witness): calling `id` on the `some_packet` instance `[5, 9]`
returns the copy `5` and hands back the untouched instance; overwriting
the copy leaves every stored field in place. -/
theorem packet_accessor_frame_witness :
    somePacketDecl ∈ packets
  ∧ (bindPacket somePacketDecl).invoke "id" ([5, 9] : List Nat) = some (5, [5, 9])
  ∧ (((5 : Nat), ([5, 9] : List Nat)).2 = [5, 9]
      ∧ (∀ w, (mutateReturned w ((5 : Nat), ([5, 9] : List Nat))).2 = [5, 9])
      ∧ ∀ w j, ((mutateReturned w ((5 : Nat), ([5, 9] : List Nat))).2.get? j
          = ([5, 9] : List Nat).get? j)) :=
  ⟨by decide, by decide,
   packet_accessor_frame somePacketDecl (by decide) Nat "id" [5, 9] (5, [5, 9]) (by decide)⟩

/-- C7: extending either axis of the cross product with one new entry
whose name is fresh on that axis makes the generator produce bindings for
exactly the full new cross product — every existing pair plus each entry
of the other axis combined with the new entry — and the derived names stay
pairwise distinct. -/
theorem axis_extension_yields_full_product (nd : String × Nat) (nt : String × Scalar)
    (hnd : nd.1 ∉ ds.map Prod.fst) (hnt : nt.1 ∉ ts.map Prod.fst) :
    (tensorBindingsGen (ds ++ [nd]) ts
        = tensorBindingsGen ds ts ++ ts.map fun t => tensorClass nd.1 t.1)
  ∧ ((tensorBindingsGen (ds ++ [nd]) ts).map ClassBinding.name).Nodup
  ∧ (tensorBindingsGen ds (ts ++ [nt])).Perm
      (tensorBindingsGen ds ts ++ ds.map fun d => tensorClass d.1 nt.1)
  ∧ ((tensorBindingsGen ds (ts ++ [nt])).map ClassBinding.name).Nodup := by
  refine ⟨?_, ?_, ?_, ?_⟩
  · simp [tensorBindingsGen, cartesianProduct, List.flatMap_append, List.flatMap_singleton,
      List.map_map, Function.comp]
  · apply tensor_names_nodup_of_inj
    · have h0 : (ds.map Prod.fst).Nodup := by decide
      simp [List.nodup_append, h0]
      intro a ha
      exact hnd (List.mem_map.mpr ⟨(nd.1, a), ha, rfl⟩)
    · decide
    · have hlen : ∀ q ∈ ts, q.1.length = 1 := by decide
      intro p _ q hq p' _ q' hq' hname
      exact tensorName_inj_right ((hlen q hq).trans (hlen q' hq').symm) hname
  · have h1 : tensorBindingsGen ds (ts ++ [nt])
        = ds.flatMap fun d =>
            ((ts.map (Prod.mk d)).map fun dt => tensorClass dt.1.1 dt.2.1)
              ++ [tensorClass d.1 nt.1] := by
      simp [tensorBindingsGen, cartesianProduct, List.map_flatMap]
    have h2 : tensorBindingsGen ds ts
        = ds.flatMap fun d =>
            (ts.map (Prod.mk d)).map fun dt => tensorClass dt.1.1 dt.2.1 := by
      simp [tensorBindingsGen, cartesianProduct, List.map_flatMap]
    have h3 : ds.map (fun d => tensorClass d.1 nt.1)
        = ds.flatMap fun d => [tensorClass d.1 nt.1] := List.map_eq_flatMap _ _
    rw [h1, h2, h3]
    exact (List.flatMap_append_perm _ _ _).symm
  · apply tensor_names_nodup_of_inj
    · decide
    · have h0 : (ts.map Prod.fst).Nodup := by decide
      simp [List.nodup_append, h0]
      intro a ha
      exact hnt (List.mem_map.mpr ⟨(nt.1, a), ha, rfl⟩)
    · have hlen : ∀ p ∈ ds, p.1.length = 2 := by decide
      intro p hp q _ p' hp' q' _ hname
      exact tensorName_inj_left ((hlen p hp).trans (hlen p' hp').symm) hname

/-- C7 (witness): adding the fresh dimension `7d` and the fresh scalar
name `h` — the generator emits exactly the enlarged cross products and
the names remain distinct. -/
theorem axis_extension_yields_full_product_witness :
    ("7d", 7).1 ∉ ds.map Prod.fst
  ∧ ("h", Scalar.float).1 ∉ ts.map Prod.fst
  ∧ ((tensorBindingsGen (ds ++ [("7d", 7)]) ts
        = tensorBindingsGen ds ts ++ ts.map fun t => tensorClass "7d" t.1)
    ∧ ((tensorBindingsGen (ds ++ [("7d", 7)]) ts).map ClassBinding.name).Nodup
    ∧ (tensorBindingsGen ds (ts ++ [("h", Scalar.float)])).Perm
        (tensorBindingsGen ds ts ++ ds.map fun d => tensorClass d.1 "h")
    ∧ ((tensorBindingsGen ds (ts ++ [("h", Scalar.float)])).map ClassBinding.name).Nodup) :=
  ⟨by decide, by decide,
   axis_extension_yields_full_product ("7d", 7) ("h", Scalar.float) (by decide) (by decide)⟩
